import Mathlib

/-!
Formal model of the STUDY-PROJECT data-format converter
(JSON / YAML / XML conversion through a common value model).

The Python sources embedded here:
  * `src/parsers/xml_parser.py`  — `XMLParser.load / save / validate`,
    `_element_to_dict`, `_dict_to_element`
  * `src/parsers/json_parser.py` — `JSONParser.load / validate`
  * `src/parsers/yaml_parser.py` — `YAMLParser.load / validate`
  * `src/main.py`                — `detect_input_format`, `validate_files`, `main`

Python values flowing through the converter (results of `json.load`,
`yaml.safe_load` and `_element_to_dict`) are modelled by the tagged union
`Value`.  Python `dict`s are modelled by `ValueMap`: an ordered list of
key/value entries with unique keys, mirroring the insertion-order
semantics of Python 3.7+ dicts; Python `list`s by `ValueSeq`.  The list
types are mutual inductives (rather than `List Value`) so that every
function below is structurally recursive and computable by the kernel.
-/

mutual

/-- The in-memory value model: the shapes a parsed document can take
(`None` / `bool` / `int` / `str` / `list` / `dict` in the Python code). -/
inductive Value where
  | null : Value
  | bool : Bool → Value
  | number : Int → Value
  | str : String → Value
  | sequence : ValueSeq → Value
  | mapping : ValueMap → Value
  deriving Repr

/-- A Python `list` of values, in order. -/
inductive ValueSeq where
  | nil : ValueSeq
  | cons : Value → ValueSeq → ValueSeq
  deriving Repr

/-- A Python `dict` mapping string keys to values, in insertion order. -/
inductive ValueMap where
  | nil : ValueMap
  | cons : String → Value → ValueMap → ValueMap
  deriving Repr

end

mutual

/-- Decidable structural equality on `Value` (Python `==`). -/
def Value.decEq : (a b : Value) → Decidable (a = b)
  | .null, .null => isTrue rfl
  | .bool a, .bool b =>
      match decEq a b with
      | isTrue h => isTrue (h ▸ rfl)
      | isFalse h => isFalse (fun hh => h (Value.bool.inj hh))
  | .number a, .number b =>
      match decEq a b with
      | isTrue h => isTrue (h ▸ rfl)
      | isFalse h => isFalse (fun hh => h (Value.number.inj hh))
  | .str a, .str b =>
      match decEq a b with
      | isTrue h => isTrue (h ▸ rfl)
      | isFalse h => isFalse (fun hh => h (Value.str.inj hh))
  | .sequence xs, .sequence ys =>
      match ValueSeq.decEq xs ys with
      | isTrue h => isTrue (h ▸ rfl)
      | isFalse h => isFalse (fun hh => h (Value.sequence.inj hh))
  | .mapping xs, .mapping ys =>
      match ValueMap.decEq xs ys with
      | isTrue h => isTrue (h ▸ rfl)
      | isFalse h => isFalse (fun hh => h (Value.mapping.inj hh))
  | .null, .bool _ | .null, .number _ | .null, .str _
  | .null, .sequence _ | .null, .mapping _
  | .bool _, .null | .bool _, .number _ | .bool _, .str _
  | .bool _, .sequence _ | .bool _, .mapping _
  | .number _, .null | .number _, .bool _ | .number _, .str _
  | .number _, .sequence _ | .number _, .mapping _
  | .str _, .null | .str _, .bool _ | .str _, .number _
  | .str _, .sequence _ | .str _, .mapping _
  | .sequence _, .null | .sequence _, .bool _ | .sequence _, .number _
  | .sequence _, .str _ | .sequence _, .mapping _
  | .mapping _, .null | .mapping _, .bool _ | .mapping _, .number _
  | .mapping _, .str _ | .mapping _, .sequence _ =>
      isFalse (fun h => Value.noConfusion h)

/-- Decidable structural equality on `ValueSeq`. -/
def ValueSeq.decEq : (a b : ValueSeq) → Decidable (a = b)
  | .nil, .nil => isTrue rfl
  | .nil, .cons _ _ => isFalse (fun h => ValueSeq.noConfusion h)
  | .cons _ _, .nil => isFalse (fun h => ValueSeq.noConfusion h)
  | .cons x xs, .cons y ys =>
      match Value.decEq x y, ValueSeq.decEq xs ys with
      | isTrue h1, isTrue h2 => isTrue (h1 ▸ h2 ▸ rfl)
      | isFalse h1, _ => isFalse (fun hh => h1 (ValueSeq.cons.inj hh).1)
      | _, isFalse h2 => isFalse (fun hh => h2 (ValueSeq.cons.inj hh).2)

/-- Decidable structural equality on `ValueMap`. -/
def ValueMap.decEq : (a b : ValueMap) → Decidable (a = b)
  | .nil, .nil => isTrue rfl
  | .nil, .cons _ _ _ => isFalse (fun h => ValueMap.noConfusion h)
  | .cons _ _ _, .nil => isFalse (fun h => ValueMap.noConfusion h)
  | .cons k v xs, .cons l w ys =>
      match decEq k l, Value.decEq v w, ValueMap.decEq xs ys with
      | isTrue h0, isTrue h1, isTrue h2 => isTrue (h0 ▸ h1 ▸ h2 ▸ rfl)
      | isFalse h0, _, _ => isFalse (fun hh => h0 (ValueMap.cons.inj hh).1)
      | _, isFalse h1, _ => isFalse (fun hh => h1 (ValueMap.cons.inj hh).2.1)
      | _, _, isFalse h2 => isFalse (fun hh => h2 (ValueMap.cons.inj hh).2.2)

end

instance : DecidableEq Value := Value.decEq

instance : DecidableEq ValueSeq := ValueSeq.decEq

instance : DecidableEq ValueMap := ValueMap.decEq

mutual

/-- An XML element as exposed by `xml.etree.ElementTree`: tag, attributes
(in document order), optional text, children (in document order). -/
inductive Element where
  | mk : String → List (String × String) → Option String → ElementList → Element
  deriving Repr

/-- The ordered children of an element. -/
inductive ElementList where
  | nil : ElementList
  | cons : Element → ElementList → ElementList
  deriving Repr

end

def Element.tag : Element → String
  | .mk t _ _ _ => t

def Element.attrib : Element → List (String × String)
  | .mk _ a _ _ => a

def Element.text : Element → Option String
  | .mk _ _ tx _ => tx

def Element.children : Element → ElementList
  | .mk _ _ _ cs => cs

/-- Python `len(element) == 0` — the element has no children. -/
def ElementList.isNil : ElementList → Bool
  | .nil => true
  | .cons _ _ => false

/-! ## Python string primitives

`str.strip()`, `str.lower()` and `str.startswith` are modelled on the
character list of the string (ASCII whitespace/case, which covers every
string this converter manipulates), keeping them computable by the kernel. -/

/-- Python `s.strip()`: drop leading and trailing whitespace. -/
def pyStrip (s : String) : String :=
  String.mk (((s.data.dropWhile Char.isWhitespace).reverse.dropWhile
    Char.isWhitespace).reverse)

/-- Python `s.lower()`. -/
def pyLower (s : String) : String :=
  String.mk (s.data.map Char.toLower)

/-- Python `s.startswith(pre)`. -/
def pyStartsWith (s pre : String) : Bool :=
  pre.data.isPrefixOf s.data

/-! ## Python dict semantics

Python 3.7+ dicts preserve insertion order; assigning to an existing key
replaces its value in place, assigning to a fresh key appends at the end. -/

/-- Python `d[k]` / `k in d`: look a key up. -/
def ValueMap.lookup : ValueMap → String → Option Value
  | .nil, _ => none
  | .cons k v rest, key => if k == key then some v else rest.lookup key

/-- Python `d[k] = v`: replace the entry in place when the key
is present (keys are unique), append a new entry otherwise. -/
def dictInsert : ValueMap → String → Value → ValueMap
  | .nil, k, v => .cons k v .nil
  | .cons k' v' rest, k, v =>
      if k' == k then .cons k' v rest
      else .cons k' v' (dictInsert rest k v)

/-- Python `d.update(other)`: assign every entry of `other` into `d` in order. -/
def dictUpdate : ValueMap → ValueMap → ValueMap
  | d, .nil => d
  | d, .cons k v rest => dictUpdate (dictInsert d k v) rest

/-- Python `len(d)`. -/
def ValueMap.length : ValueMap → Nat
  | .nil => 0
  | .cons _ _ rest => rest.length + 1

/-- Python `any(pred(k) for k in d.keys())`. -/
def ValueMap.anyKey : ValueMap → (String → Bool) → Bool
  | .nil, _ => false
  | .cons k _ rest, p => p k || rest.anyKey p

/-- Python `list(d.values())[0]`, with a placeholder for the (guarded-away)
empty case. -/
def ValueMap.headValueD : ValueMap → Value
  | .nil => .null
  | .cons _ v _ => v

/-- Python `not d` — the dict is empty. -/
def ValueMap.isNil : ValueMap → Bool
  | .nil => true
  | .cons _ _ _ => false

/-- Python `list.append`. -/
def ValueSeq.append1 : ValueSeq → Value → ValueSeq
  | .nil, v => .cons v .nil
  | .cons x rest, v => .cons x (rest.append1 v)

/-! ## XML → Value (`XMLParser._element_to_dict`) -/

/-- Truthiness of `element.text and element.text.strip()` in
`_element_to_dict`: the text is present and strips to a non-empty string. -/
def textTruthy : Option String → Bool
  | none => false
  | some s => !(pyStrip s == "")

/-- The trimmed text `element.text.strip()`, defaulting for absent text. -/
def textStripped (tx : Option String) : String :=
  pyStrip (tx.getD "")

/-- Python `isinstance(v, list)` on a modelled value. -/
def Value.isSequenceB : Value → Bool
  | .sequence _ => true
  | _ => false

/-- One step of the child-aggregation loop in `_element_to_dict`:

```python
if child.tag in children:
    if not isinstance(children[child.tag], list):
        children[child.tag] = [children[child.tag]]
    children[child.tag].append(child_data)
else:
    children[child.tag] = child_data
```
-/
def insertChildSlot (acc : ValueMap) (tag : String) (v : Value) : ValueMap :=
  match acc.lookup tag with
  | some (.sequence xs) => dictInsert acc tag (.sequence (xs.append1 v))
  | some w => dictInsert acc tag (.sequence (.cons w (.cons v .nil)))
  | none => dictInsert acc tag v

/-- The single-entry collapse test of `_element_to_dict`:

```python
if (len(result) == 1 and
    not any(k.startswith('@') or k == '#text' for k in result.keys()) and
    not element.attrib and
    not isinstance(list(result.values())[0], list)):
```
-/
def collapseCheck (result : ValueMap) (attrib : List (String × String)) : Bool :=
  result.length == 1 &&
  !(result.anyKey (fun k => pyStartsWith k "@" || k == "#text")) &&
  attrib.isEmpty &&
  !result.headValueD.isSequenceB

mutual

/-- Model of `XMLParser._element_to_dict`: convert an XML element to a value.
Attributes become `"@"`-prefixed keys, bare text collapses to a scalar,
text next to attributes/children becomes `"#text"`, children are grouped
by tag with duplicates aggregated into a list, a one-entry wrapper dict
is collapsed to its sole value, and an empty result becomes `None`. -/
def element_to_dict : Element → Value
  | .mk _tag attrib text children =>
      let result0 : ValueMap :=
        attrib.foldl (fun acc p => dictInsert acc ("@" ++ p.1) (.str p.2)) .nil
      if textTruthy text && children.isNil && attrib.isEmpty then
        .str (textStripped text)
      else
        let result1 :=
          if textTruthy text then dictInsert result0 "#text" (.str (textStripped text))
          else result0
        let childDict := child_fold .nil children
        let result := dictUpdate result1 childDict
        if collapseCheck result attrib then result.headValueD
        else if result.isNil then .null
        else .mapping result

/-- The `for child in element:` loop of `_element_to_dict`, building the
`children` dict left to right. -/
def child_fold : ValueMap → ElementList → ValueMap
  | acc, .nil => acc
  | acc, .cons c rest => child_fold (insertChildSlot acc c.tag (element_to_dict c)) rest

end

/-- The document-level wrap in `XMLParser.load`:

```python
if root.tag:
    return {root.tag: data}
else:
    return data if isinstance(data, dict) else {"data": data}
```
-/
def xml_load_root (root : Element) : Value :=
  let data := element_to_dict root
  if root.tag ≠ "" then .mapping (.cons root.tag data .nil)
  else
    match data with
    | .mapping es => .mapping es
    | d => .mapping (.cons "data" d .nil)

/-! ## Value → XML (`XMLParser._dict_to_element`) -/

mutual

/-- The inner `_build_element(key, value)` of `XMLParser._dict_to_element`:
dicts become elements with one child per entry, lists become elements with
one `"item"` child per item, anything else becomes a text leaf whose text
is Python `str(value)`. -/
def build_element : String → Value → Element
  | key, .mapping entries => .mk key [] none (build_children entries)
  | key, .sequence items => .mk key [] none (build_items items)
  | key, .null => .mk key [] (some "None") .nil
  | key, .bool b => .mk key [] (some (if b then "True" else "False")) .nil
  | key, .number n => .mk key [] (some (toString n)) .nil
  | key, .str s => .mk key [] (some s) .nil

/-- Loop `for subkey, subvalue in value.items(): elem.append(...)`. -/
def build_children : ValueMap → ElementList
  | .nil => .nil
  | .cons k v rest => .cons (build_element k v) (build_children rest)

/-- Loop `for item in value: elem.append(_build_element("item", item))`. -/
def build_items : ValueSeq → ElementList
  | .nil => .nil
  | .cons v rest => .cons (build_element "item" v) (build_items rest)

end

/-- Model of `XMLParser._dict_to_element`: build the root element (`XMLParser.save`
always passes the default tag `"root"`) with one child per top-level dict
entry — the same loop as the dict case of `_build_element`. -/
def dict_to_element (data : ValueMap) (root_tag : String) : Element :=
  .mk root_tag [] none (build_children data)

/-! ## File-level model

The loads open real files and catch the Python exceptions
`FileNotFoundError`, `PermissionError` and the parse errors of the stdlib
parsers, re-raising everything else as `ValueError` — so every error a
parser's `load` can raise is one of these three exception classes. -/

/-- The Python exception classes that escape the parsers' `load`/`save`. -/
inductive PyErr where
  | fileNotFoundError : String → PyErr
  | valueError : String → PyErr
  | permissionError : String → PyErr
  deriving Repr, DecidableEq

/-- A file's content as seen through the stdlib parsers (which are
external to this repository): each field is the parse result of the raw
bytes, with `.error msg` standing for the parser exception
(`json.JSONDecodeError`, `yaml.YAMLError`, `ET.ParseError`) and its
message. -/
structure FileContent where
  asJson : Except String Value
  asYaml : Except String Value
  asXml : Except String Element

/-- A file on disk: `present`/`readable` model whether `open()` raises
`FileNotFoundError`/`PermissionError`; `isFile` models `Path.is_file()`. -/
structure DiskFile where
  path : String
  present : Bool
  readable : Bool
  isFile : Bool
  content : FileContent

/-- The top-level wrap of `JSONParser.load`:

```python
if not isinstance(loaded_data, dict):
    data = {"data": loaded_data}
else:
    data = loaded_data
```
-/
def json_wrap : Value → Value
  | .mapping es => .mapping es
  | d => .mapping (.cons "data" d .nil)

/-- The identical top-level wrap of `YAMLParser.load`. -/
def yaml_wrap : Value → Value
  | .mapping es => .mapping es
  | d => .mapping (.cons "data" d .nil)

/-- Model of `JSONParser.load`: open the file, parse with `json.load`, wrap a
non-dict top level as `{"data": ...}`; errors become the three `PyErr`
kinds with the file path embedded in the message. -/
def JSONParser.load (f : DiskFile) : Except PyErr Value :=
  if !f.present then
    .error (.fileNotFoundError ("JSON file not found: " ++ f.path))
  else if !f.readable then
    .error (.permissionError ("No permission to read file: " ++ f.path))
  else
    match f.content.asJson with
    | .error e => .error (.valueError ("Invalid JSON format in " ++ f.path ++ ": " ++ e))
    | .ok d => .ok (json_wrap d)

/-- Model of `YAMLParser.load`: same shape as `JSONParser.load` with `yaml.safe_load`. -/
def YAMLParser.load (f : DiskFile) : Except PyErr Value :=
  if !f.present then
    .error (.fileNotFoundError ("YAML file not found: " ++ f.path))
  else if !f.readable then
    .error (.permissionError ("No permission to read file: " ++ f.path))
  else
    match f.content.asYaml with
    | .error e => .error (.valueError ("Invalid YAML format in " ++ f.path ++ ": " ++ e))
    | .ok d => .ok (yaml_wrap d)

/-- Model of `XMLParser.load`: `ET.parse`, convert the root via `_element_to_dict`,
wrap as `{root.tag: data}` (see `xml_load_root`). -/
def XMLParser.load (f : DiskFile) : Except PyErr Value :=
  if !f.present then
    .error (.fileNotFoundError ("XML file not found: " ++ f.path))
  else if !f.readable then
    .error (.permissionError ("No permission to read file: " ++ f.path))
  else
    match f.content.asXml with
    | .error e => .error (.valueError ("Invalid XML format in " ++ f.path ++ ": " ++ e))
    | .ok root => .ok (xml_load_root root)

/-- Model of `JSONParser.validate`:

```python
try:
    JSONParser.load(file_path)
    return True
except (ValueError, FileNotFoundError, PermissionError):
    return False
```
-/
def JSONParser.validate (f : DiskFile) : Bool :=
  match JSONParser.load f with
  | .ok _ => true
  | .error (.valueError _) => false
  | .error (.fileNotFoundError _) => false
  | .error (.permissionError _) => false

/-- Model of `YAMLParser.validate`, identical catch list. -/
def YAMLParser.validate (f : DiskFile) : Bool :=
  match YAMLParser.load f with
  | .ok _ => true
  | .error (.valueError _) => false
  | .error (.fileNotFoundError _) => false
  | .error (.permissionError _) => false

/-- Model of `XMLParser.validate`, identical catch list. -/
def XMLParser.validate (f : DiskFile) : Bool :=
  match XMLParser.load f with
  | .ok _ => true
  | .error (.valueError _) => false
  | .error (.fileNotFoundError _) => false
  | .error (.permissionError _) => false

/-! ## Saving -/

/-- Model of `XMLParser.save`: build the element tree with `_dict_to_element`
(root tag `"root"`) and write it; a non-dict argument makes `data.items()`
raise, which the catch-all turns into `ValueError`; a write failure is
re-raised as `PermissionError`.  The written bytes parse back to the same
element tree up to the indentation whitespace added by `ET.indent`, which
`_element_to_dict` strips away on load. -/
def XMLParser.save (data : Value) (outPath : String) (writable : Bool) :
    Except PyErr Element :=
  if !writable then
    .error (.permissionError ("No permission to write file: " ++ outPath))
  else
    match data with
    | .mapping es => .ok (dict_to_element es "root")
    | _ => .error (.valueError ("Error saving XML file " ++ outPath))

/-- Modelled from the spec: `JSONParser.save` is called by `main.py` and
`gui.py` but is absent from the provided `json_parser.py` (a task-history
snapshot; the spec's §4.4/§6 requires a `save` per codec that serializes
the Value as standard JSON text, surfacing I/O failures as typed errors).
Modelled as emitting the saved `Value` itself, since per §6 the written
JSON text parses back (`json.load`) to an equal Value. -/
def JSONParser.save (data : Value) (outPath : String) (writable : Bool) :
    Except PyErr Value :=
  if !writable then
    .error (.permissionError ("No permission to write file: " ++ outPath))
  else .ok data

/-- Modelled from the spec: `YAMLParser.save` is likewise absent from the
provided `yaml_parser.py`; per §4.4/§6 it serializes the Value as a single
YAML document that parses back (`yaml.safe_load`) to an equal Value. -/
def YAMLParser.save (data : Value) (outPath : String) (writable : Bool) :
    Except PyErr Value :=
  if !writable then
    .error (.permissionError ("No permission to write file: " ++ outPath))
  else .ok data

/-- Modelled from the spec: reading back the file written by
`JSONParser.save` — `json.load` recovers the saved Value (§6), then
`JSONParser.load` applies its top-level wrap. -/
def json_reload (v : Value) : Value := json_wrap v

/-- Modelled from the spec: reading back the file written by
`YAMLParser.save` — `yaml.safe_load` recovers the saved Value (§6), then
`YAMLParser.load` applies its top-level wrap. -/
def yaml_reload (v : Value) : Value := yaml_wrap v

/-- Loading the file just written by `XMLParser.save` for the dict `es`:
`ET.parse` recovers the element tree written by `_dict_to_element` (the
indentation whitespace that `ET.indent` adds strips away in
`_element_to_dict`), then `XMLParser.load` converts and wraps it. -/
def xml_reload (es : ValueMap) : Value :=
  xml_load_root (dict_to_element es "root")

/-! ## Conversion driver (`src/main.py`) -/

/-- The `format_map` literal of `detect_input_format`. -/
def format_map : List (String × String) :=
  [(".json", "json"), (".yaml", "yaml"), (".yml", "yaml"), (".xml", "xml")]

/-- Model of `detect_input_format`: map the lowercased file extension through
`format_map`, defaulting to `'unknown'`. -/
def detect_input_format (suffix : String) : String :=
  (format_map.lookup (pyLower suffix)).getD "unknown"

/-- Model of `validate_files`: the input must exist and be a regular file; the
output parent directory is created, re-raising a denied `mkdir` as
`PermissionError`. -/
def validate_files (input : DiskFile) (outParent : String)
    (outParentWritable : Bool) : Except PyErr Unit :=
  if !input.present then
    .error (.fileNotFoundError ("Input file does not exist: " ++ input.path))
  else if !input.isFile then
    .error (.valueError ("Input path is not a file: " ++ input.path))
  else if !outParentWritable then
    .error (.permissionError ("No write permission for: " ++ outParent))
  else .ok ()

/-- What a completed save wrote: the serialized artifact per format. -/
inductive Saved where
  | json : Value → Saved
  | yaml : Value → Saved
  | xml : Element → Saved

/-- File-system effects of one driver run that touch document files. -/
inductive Event where
  | readInput : String → Event
  | wroteOutput : String → Event
  deriving Repr, DecidableEq

/-- The save-branch chain at the end of `main` (`if args.format == 'json':
... elif 'yaml': ... elif 'xml': ... else: print note`), applied to the
loaded data; result `none` models the final `else` branch that returns
without saving. -/
def main_save_stage (data : Value) (outPath : String) (outWritable : Bool)
    (out_format : String) (evs : List Event) :
    Except PyErr (Option Saved) × List Event :=
  if out_format == "json" then
    match JSONParser.save data outPath outWritable with
    | .error e => (.error e, evs ++ [.wroteOutput "json"])
    | .ok v => (.ok (some (.json v)), evs ++ [.wroteOutput "json"])
  else if out_format == "yaml" then
    match YAMLParser.save data outPath outWritable with
    | .error e => (.error e, evs ++ [.wroteOutput "yaml"])
    | .ok v => (.ok (some (.yaml v)), evs ++ [.wroteOutput "yaml"])
  else if out_format == "xml" then
    match XMLParser.save data outPath outWritable with
    | .error e => (.error e, evs ++ [.wroteOutput "xml"])
    | .ok el => (.ok (some (.xml el)), evs ++ [.wroteOutput "xml"])
  else (.ok none, evs)

/-- The load-branch result of `main` followed by the save stage. -/
def main_load_stage (loadRes : Except PyErr Value) (input_format : String)
    (outPath : String) (outWritable : Bool) (out_format : String) :
    Except PyErr (Option Saved) × List Event :=
  match loadRes with
  | .error e => (.error e, [.readInput input_format])
  | .ok data =>
      main_save_stage data outPath outWritable out_format
        [.readInput input_format]

/-- The body of `main` (inside its `try`): validate paths, detect the
input format from the extension, reject `'unknown'`, load with the
matching parser, save with the parser for `--format`.  The returned event
list records which document files were opened for reading/writing. -/
def main_convert (input : DiskFile) (suffix : String) (outParent : String)
    (outParentWritable : Bool) (outPath : String) (outWritable : Bool)
    (out_format : String) : Except PyErr (Option Saved) × List Event :=
  match validate_files input outParent outParentWritable with
  | .error e => (.error e, [])
  | .ok _ =>
    let input_format := detect_input_format suffix
    if input_format == "unknown" then
      (.error (.valueError ("Unsupported input file format: " ++ suffix)), [])
    else if input_format == "json" then
      main_load_stage (JSONParser.load input) input_format outPath outWritable out_format
    else if input_format == "yaml" then
      main_load_stage (YAMLParser.load input) input_format outPath outWritable out_format
    else if input_format == "xml" then
      main_load_stage (XMLParser.load input) input_format outPath outWritable out_format
    else
      (.ok none, [])

/-- The per-format `load(source) -> Value` half of a codec pair, as the
spec's §4.4 describes the driver's contract (refinement reference for the
relay property). -/
def pair_load (fmt : String) (f : DiskFile) : Except PyErr Value :=
  if fmt == "json" then JSONParser.load f
  else if fmt == "yaml" then YAMLParser.load f
  else XMLParser.load f

/-- The per-format `save(Value, sink)` half of a codec pair (refinement
reference for the relay property). -/
def pair_save (fmt : String) (v : Value) (outPath : String)
    (writable : Bool) : Except PyErr Saved :=
  if fmt == "json" then (JSONParser.save v outPath writable).map .json
  else if fmt == "yaml" then (YAMLParser.save v outPath writable).map .yaml
  else (XMLParser.save v outPath writable).map .xml

/-! ## Shape predicates -/

/-- Python `isinstance(v, dict)`. -/
def Value.isMappingB : Value → Bool
  | .mapping _ => true
  | _ => false

/-- The value is a `None`, a `str`, or a `dict` (the shapes
`_element_to_dict` can return). -/
def Value.isNullStrMapB : Value → Bool
  | .null => true
  | .str _ => true
  | .mapping _ => true
  | _ => false

/-- Boolean test that a load returned normally (`Except.isOk` on the
parsers' result type). -/
def loadOk : Except PyErr Value → Bool
  | .ok _ => true
  | .error _ => false

/-- Values that may legally sit in the `result` dict of
`_element_to_dict`: either an aggregated duplicate-tag list or one of the
shapes `_element_to_dict` itself returns. -/
def qslot (v : Value) : Bool := v.isSequenceB || v.isNullStrMapB

/-- Every value of the dict satisfies `Q`. -/
def ValueMap.allValues (Q : Value → Bool) : ValueMap → Bool
  | .nil => true
  | .cons _ v rest => Q v && rest.allValues Q

/-! # Theorems -/

theorem allValues_dictInsert (Q : Value → Bool) :
    ∀ (d : ValueMap) (k : String) (v : Value),
      d.allValues Q = true → Q v = true → (dictInsert d k v).allValues Q = true
  | .nil, k, v, hd, hv => by simp [dictInsert, ValueMap.allValues, hv]
  | .cons k' v' rest, k, v, hd, hv => by
      simp [ValueMap.allValues] at hd
      by_cases hk : (k' == k) = true
      · simp [dictInsert, hk, ValueMap.allValues, hv, hd.2]
      · simp [dictInsert, hk, ValueMap.allValues, hd.1]
        exact allValues_dictInsert Q rest k v hd.2 hv

theorem allValues_attr_fold (Q : Value → Bool) (l : List (String × String))
    (acc : ValueMap) (hacc : acc.allValues Q = true)
    (hstr : ∀ s, Q (.str s) = true) :
    (l.foldl (fun acc p => dictInsert acc ("@" ++ p.1) (.str p.2)) acc).allValues Q
      = true := by
  induction l generalizing acc with
  | nil => simpa using hacc
  | cons p rest ih =>
      simp only [List.foldl_cons]
      exact ih _ (allValues_dictInsert Q acc _ _ hacc (hstr _))

theorem allValues_insertChildSlot (d : ValueMap) (t : String) (v : Value)
    (hd : d.allValues qslot = true) (hv : qslot v = true) :
    (insertChildSlot d t v).allValues qslot = true := by
  unfold insertChildSlot
  split
  · exact allValues_dictInsert qslot d t _ hd (by simp [qslot, Value.isSequenceB])
  · exact allValues_dictInsert qslot d t _ hd (by simp [qslot, Value.isSequenceB])
  · exact allValues_dictInsert qslot d t _ hd hv

theorem allValues_dictUpdate (Q : Value → Bool) :
    ∀ (other d : ValueMap),
      d.allValues Q = true → other.allValues Q = true →
      (dictUpdate d other).allValues Q = true
  | .nil, d, hd, ho => by simpa [dictUpdate] using hd
  | .cons k v rest, d, hd, ho => by
      simp [ValueMap.allValues] at ho
      exact allValues_dictUpdate Q rest (dictInsert d k v)
        (allValues_dictInsert Q d k v hd ho.1) ho.2

theorem headValue_nsm (result : ValueMap) (a : List (String × String))
    (hall : result.allValues qslot = true) (hc : collapseCheck result a = true) :
    result.headValueD.isNullStrMapB = true := by
  cases result with
  | nil => simp [collapseCheck, ValueMap.length] at hc
  | cons k v rest =>
      simp [collapseCheck, ValueMap.headValueD] at hc
      simp [ValueMap.allValues, qslot] at hall
      rcases hall.1 with h | h
      · exact absurd h (by simp [hc.2])
      · exact h

theorem collapse_shape_nsm (result : ValueMap) (a : List (String × String))
    (hall : result.allValues qslot = true) :
    (if collapseCheck result a then result.headValueD
     else if result.isNil then Value.null
     else Value.mapping result).isNullStrMapB = true := by
  split
  · exact headValue_nsm result a hall (by assumption)
  · split
    · rfl
    · rfl

mutual

/-- Auxiliary form of the `_element_to_dict` shape invariant, proved by
mutual induction with the child-loop invariant below. -/
theorem element_to_dict_nsm_aux : ∀ e : Element,
    (element_to_dict e).isNullStrMapB = true
  | .mk t a tx cs => by
      have h0 : (a.foldl (fun acc p => dictInsert acc ("@" ++ p.1) (.str p.2))
          ValueMap.nil).allValues qslot = true :=
        allValues_attr_fold qslot a .nil rfl (fun s => rfl)
      have h1 : ((if textTruthy tx then
            dictInsert (a.foldl (fun acc p => dictInsert acc ("@" ++ p.1) (.str p.2))
              ValueMap.nil) "#text" (.str (textStripped tx))
          else
            a.foldl (fun acc p => dictInsert acc ("@" ++ p.1) (.str p.2))
              ValueMap.nil)).allValues qslot = true := by
        split
        · exact allValues_dictInsert qslot _ _ _ h0 rfl
        · exact h0
      have h2 : (child_fold .nil cs).allValues qslot = true :=
        child_fold_all_qslot .nil cs rfl
      simp only [element_to_dict]
      split
      · rfl
      · exact collapse_shape_nsm _ a (allValues_dictUpdate qslot _ _ h1 h2)

/-- The `children` dict built by the child loop only holds aggregated
lists or values `_element_to_dict` returned. -/
theorem child_fold_all_qslot : ∀ (acc : ValueMap) (cs : ElementList),
    acc.allValues qslot = true → (child_fold acc cs).allValues qslot = true
  | acc, .nil, h => h
  | acc, .cons c rest, h =>
      child_fold_all_qslot _ rest
        (allValues_insertChildSlot acc c.tag (element_to_dict c) h
          (by simp [qslot, element_to_dict_nsm_aux c]))

end

/-- C9: `_element_to_dict` only ever returns a `None`, a `str`, or a
`dict` — never a `list` as the element's own value; lists arise only as
values bound to duplicate child-tag keys inside a dict (or via the
document-level wrap of `xml_load_root`). -/
theorem element_to_dict_null_str_map (e : Element) :
    (element_to_dict e).isNullStrMapB = true :=
  element_to_dict_nsm_aux e

/-- The XML document `<a><item>1</item><item>2</item></a>`. -/
def doc_dup_items : Element :=
  .mk "a" [] none
    (.cons (.mk "item" [] (some "1") .nil)
      (.cons (.mk "item" [] (some "2") .nil) .nil))

/-- C2 (counterexample): loading `<a><item>1</item><item>2</item></a>` does
not yield `{"a": [1, 2]}`. -/
theorem dup_tag_claim_counterexample :
    xml_load_root doc_dup_items ≠
      .mapping (.cons "a"
        (.sequence (.cons (.number 1) (.cons (.number 2) .nil))) .nil) := by
  decide

/-- C2 (amended): the duplicate `item` children are aggregated into a
Sequence, but the single-group collapse does NOT fold the group onto `a`
(the sole entry's value is a Sequence, which the collapse test excludes),
and XML text loads as Strings: the result is `{"a": {"item": ["1", "2"]}}`. -/
theorem dup_tag_load_aggregates_under_item :
    xml_load_root doc_dup_items =
      .mapping (.cons "a"
        (.mapping (.cons "item"
          (.sequence (.cons (.str "1") (.cons (.str "2") .nil))) .nil)) .nil) := by
  decide

/-- The XML document `<a><b>5</b></a>`. -/
def doc_wrapper_b5 : Element :=
  .mk "a" [] none (.cons (.mk "b" [] (some "5") .nil) .nil)

/-- C5 (counterexample): `<a><b>5</b></a>` does not load to `{"a": 5}` —
the collapse does fire, but XML text content loads as the String "5",
not the Number 5. -/
theorem single_child_collapse_counterexample :
    xml_load_root doc_wrapper_b5 ≠
      .mapping (.cons "a" (.number 5) .nil) := by
  decide

/-- C5 (amended): `<a><b>5</b></a>` loads to `{"a": "5"}` — the one-entry
wrapper dict produced for `a` is collapsed to its sole value (so not
`{"a": {"b": "5"}}`), with the text as a String. -/
theorem single_child_collapse_to_string :
    xml_load_root doc_wrapper_b5 = .mapping (.cons "a" (.str "5") .nil) ∧
    xml_load_root doc_wrapper_b5 ≠
      .mapping (.cons "a" (.mapping (.cons "b" (.str "5") .nil)) .nil) := by
  decide

/-- C7: `<a id="7">hi</a>` loads to `{"a": {"@id": "7", "#text": "hi"}}` —
attributes become `"@"`-prefixed keys and text coexisting with attributes
becomes the `"#text"` key. -/
theorem attr_text_coexistence_load :
    xml_load_root (.mk "a" [("id", "7")] (some "hi") .nil) =
      .mapping (.cons "a"
        (.mapping (.cons "@id" (.str "7")
          (.cons "#text" (.str "hi") .nil))) .nil) := by
  decide

/-- The top-level dict of the JSON document `{"x": [1, 2, 3]}`. -/
def map_x123 : ValueMap :=
  .cons "x" (.sequence (.cons (.number 1) (.cons (.number 2) (.cons (.number 3) .nil)))) .nil

/-- The JSON file holding `{"x": [1, 2, 3]}`. -/
def file_x123 : DiskFile :=
  { path := "input.json", present := true, readable := true, isFile := true,
    content := { asJson := .ok (.mapping map_x123),
                 asYaml := .error "", asXml := .error "" } }

/-- C4 (counterexample): `{"x": [1,2,3]}` JSON → XML → JSON does not come
back equal to the original Value. -/
theorem json_xml_json_chain_counterexample :
    JSONParser.load file_x123 = .ok (.mapping map_x123) ∧
    json_reload (xml_reload map_x123) ≠ .mapping map_x123 :=
  ⟨rfl, by decide⟩

/-- C4 (amended): the chain yields `{"root": {"item": ["1", "2", "3"]}}` —
the wrapper key `x` is collapsed away and replaced by the synthesized root
tag `root`, sequence items are re-keyed `item`, and the numbers come back
as Strings. -/
theorem json_xml_json_chain_result :
    json_reload (xml_reload map_x123) =
      .mapping (.cons "root"
        (.mapping (.cons "item"
          (.sequence (.cons (.str "1") (.cons (.str "2") (.cons (.str "3") .nil)))) .nil)) .nil) := by
  decide

/-- C3 (counterexample): converting the XML document `<a>hi</a>` to XML
(same format) changes its Value: the first load yields `{"a": "hi"}`, but
saving that Value (`XMLParser.save` rebuilds the tree under the synthetic
root tag `"root"`) and loading the saved file yields `{"root": "hi"}`. -/
theorem xml_same_format_counterexample :
    xml_load_root (.mk "a" [] (some "hi") .nil) =
      .mapping (.cons "a" (.str "hi") .nil) ∧
    XMLParser.save (.mapping (.cons "a" (.str "hi") .nil)) "out.xml" true =
      .ok (dict_to_element (.cons "a" (.str "hi") .nil) "root") ∧
    xml_reload (.cons "a" (.str "hi") .nil) ≠
      .mapping (.cons "a" (.str "hi") .nil) :=
  ⟨by decide, rfl, by decide⟩

theorem json_wrap_isMappingB (d : Value) : (json_wrap d).isMappingB = true := by
  cases d <;> rfl

theorem yaml_wrap_isMappingB (d : Value) : (yaml_wrap d).isMappingB = true := by
  cases d <;> rfl

theorem xml_load_root_isMappingB (root : Element) :
    (xml_load_root root).isMappingB = true := by
  simp only [xml_load_root]
  split
  · rfl
  · split <;> rfl

theorem json_wrap_of_isMappingB (v : Value) (h : v.isMappingB = true) :
    json_wrap v = v := by
  cases v <;> simp_all [json_wrap, Value.isMappingB]

theorem yaml_wrap_of_isMappingB (v : Value) (h : v.isMappingB = true) :
    yaml_wrap v = v := by
  cases v <;> simp_all [yaml_wrap, Value.isMappingB]

theorem json_load_ok_isMappingB (f : DiskFile) (v : Value)
    (h : JSONParser.load f = .ok v) : v.isMappingB = true := by
  unfold JSONParser.load at h
  split at h
  · exact absurd h (by simp)
  · split at h
    · exact absurd h (by simp)
    · split at h
      · exact absurd h (by simp)
      · cases h
        exact json_wrap_isMappingB _

theorem yaml_load_ok_isMappingB (f : DiskFile) (v : Value)
    (h : YAMLParser.load f = .ok v) : v.isMappingB = true := by
  unfold YAMLParser.load at h
  split at h
  · exact absurd h (by simp)
  · split at h
    · exact absurd h (by simp)
    · split at h
      · exact absurd h (by simp)
      · cases h
        exact yaml_wrap_isMappingB _

theorem xml_load_ok_isMappingB (f : DiskFile) (v : Value)
    (h : XMLParser.load f = .ok v) : v.isMappingB = true := by
  unfold XMLParser.load at h
  split at h
  · exact absurd h (by simp)
  · split at h
    · exact absurd h (by simp)
    · split at h
      · exact absurd h (by simp)
      · cases h
        exact xml_load_root_isMappingB _

/-- C3 (amended): same-format conversion leaves the Value unchanged for
the JSON and YAML codecs (save then load recovers the loaded Value), but
not for the XML codec: the saved tree always carries the synthesized root
tag `"root"`, so reloading yields a Value whose sole top-level key is
`"root"` — which differs from the original whenever the original root tag
does (see the counterexample). -/
theorem same_format_reload_amended :
    (∀ (f : DiskFile) (v : Value), JSONParser.load f = .ok v → json_reload v = v) ∧
    (∀ (f : DiskFile) (v : Value), YAMLParser.load f = .ok v → yaml_reload v = v) ∧
    (∀ es : ValueMap, xml_reload es =
      .mapping (.cons "root" (element_to_dict (dict_to_element es "root")) .nil)) := by
  refine ⟨?_, ?_, ?_⟩
  · intro f v h
    exact json_wrap_of_isMappingB v (json_load_ok_isMappingB f v h)
  · intro f v h
    exact yaml_wrap_of_isMappingB v (yaml_load_ok_isMappingB f v h)
  · intro es
    rfl

/-- The JSON file holding `{"k": "v"}` (used to instantiate theorems with
load hypotheses). -/
def file_kv_json : DiskFile :=
  { path := "in.json", present := true, readable := true, isFile := true,
    content := { asJson := .ok (.mapping (.cons "k" (.str "v") .nil)),
                 asYaml := .ok (.mapping (.cons "k" (.str "v") .nil)),
                 asXml := .error "" } }

theorem same_format_reload_amended_witness :
    json_reload (.mapping (.cons "k" (.str "v") .nil)) =
      .mapping (.cons "k" (.str "v") .nil) :=
  same_format_reload_amended.1 file_kv_json _ rfl

/-- C6: every `load` returns a dict at top level: JSON and YAML wrap a
non-dict top-level value as `{"data": value}`, and XML wraps the converted
root as `{rootTagName: convertedRootValue}` (the root tag of a parsed
document is never empty). -/
theorem load_root_always_mapping :
    (∀ (f : DiskFile) (v : Value), JSONParser.load f = .ok v → v.isMappingB = true) ∧
    (∀ (f : DiskFile) (v : Value), YAMLParser.load f = .ok v → v.isMappingB = true) ∧
    (∀ (f : DiskFile) (v : Value), XMLParser.load f = .ok v → v.isMappingB = true) ∧
    (∀ d : Value, d.isMappingB = false →
      json_wrap d = .mapping (.cons "data" d .nil) ∧
      yaml_wrap d = .mapping (.cons "data" d .nil)) ∧
    (∀ root : Element, root.tag ≠ "" →
      xml_load_root root = .mapping (.cons root.tag (element_to_dict root) .nil)) := by
  refine ⟨json_load_ok_isMappingB, yaml_load_ok_isMappingB, xml_load_ok_isMappingB, ?_, ?_⟩
  · intro d h
    cases d <;> simp_all [json_wrap, yaml_wrap, Value.isMappingB]
  · intro root h
    simp [xml_load_root, h]

theorem load_root_always_mapping_witness :
    (Value.mapping (.cons "k" (.str "v") .nil)).isMappingB = true ∧
    json_wrap (.str "s") = .mapping (.cons "data" (.str "s") .nil) ∧
    xml_load_root (.mk "a" [] (some "hi") .nil) =
      .mapping (.cons "a" (element_to_dict (.mk "a" [] (some "hi") .nil)) .nil) :=
  ⟨load_root_always_mapping.1 file_kv_json _ rfl,
   (load_root_always_mapping.2.2.2.1 (.str "s") rfl).1,
   load_root_always_mapping.2.2.2.2 (.mk "a" [] (some "hi") .nil) (by decide)⟩

theorem json_validate_eq (f : DiskFile) :
    JSONParser.validate f = loadOk (JSONParser.load f) := by
  unfold JSONParser.validate loadOk
  cases h : JSONParser.load f with
  | ok v => rfl
  | error e => cases e <;> rfl

theorem yaml_validate_eq (f : DiskFile) :
    YAMLParser.validate f = loadOk (YAMLParser.load f) := by
  unfold YAMLParser.validate loadOk
  cases h : YAMLParser.load f with
  | ok v => rfl
  | error e => cases e <;> rfl

theorem xml_validate_eq (f : DiskFile) :
    XMLParser.validate f = loadOk (XMLParser.load f) := by
  unfold XMLParser.validate loadOk
  cases h : XMLParser.load f with
  | ok v => rfl
  | error e => cases e <;> rfl

/-- C10: for each parser, `validate` returns `True` exactly when `load`
returns normally, and returns `False` (rather than propagating) whenever
`load` raises — every error `load` can raise is one of the three caught
classes `FileNotFoundError` / `ValueError` / `PermissionError`
(constructors of `PyErr`). -/
theorem validate_iff_load_ok :
    ∀ f : DiskFile,
      (JSONParser.validate f = true ↔ ∃ v, JSONParser.load f = .ok v) ∧
      (∀ e, JSONParser.load f = .error e → JSONParser.validate f = false) ∧
      (YAMLParser.validate f = true ↔ ∃ v, YAMLParser.load f = .ok v) ∧
      (∀ e, YAMLParser.load f = .error e → YAMLParser.validate f = false) ∧
      (XMLParser.validate f = true ↔ ∃ v, XMLParser.load f = .ok v) ∧
      (∀ e, XMLParser.load f = .error e → XMLParser.validate f = false) := by
  intro f
  refine ⟨?_, ?_, ?_, ?_, ?_, ?_⟩
  · rw [json_validate_eq]
    cases h : JSONParser.load f <;> simp [loadOk, h]
  · intro e h
    rw [json_validate_eq, h]
    rfl
  · rw [yaml_validate_eq]
    cases h : YAMLParser.load f <;> simp [loadOk, h]
  · intro e h
    rw [yaml_validate_eq, h]
    rfl
  · rw [xml_validate_eq]
    cases h : XMLParser.load f <;> simp [loadOk, h]
  · intro e h
    rw [xml_validate_eq, h]
    rfl

/-- A missing file (every parser's `load` raises `FileNotFoundError`). -/
def file_missing : DiskFile :=
  { path := "gone.json", present := false, readable := true, isFile := false,
    content := { asJson := .error "", asYaml := .error "", asXml := .error "" } }

theorem validate_iff_load_ok_witness :
    JSONParser.validate file_missing = false ∧
    XMLParser.validate file_kv_json = false :=
  ⟨(validate_iff_load_ok file_missing).2.1
      (.fileNotFoundError ("JSON file not found: " ++ "gone.json")) rfl,
   (validate_iff_load_ok file_kv_json).2.2.2.2.2
      (.valueError ("Invalid XML format in " ++ "in.json" ++ ": " ++ "")) rfl⟩

/-- C8: an input path whose (lowercased) extension is not
`.json`/`.yaml`/`.yml`/`.xml` makes the driver stop with the
`Unsupported input file format` `ValueError` raised at its dedicated
raise-site in `main` — before any parser runs, so no document file is
opened for writing (the event trace is empty). -/
theorem unsupported_extension_rejected :
    ∀ (input : DiskFile) (suffix outParent outPath out_format : String) (ow : Bool),
      input.present = true → input.isFile = true →
      pyLower suffix ≠ ".json" → pyLower suffix ≠ ".yaml" →
      pyLower suffix ≠ ".yml" → pyLower suffix ≠ ".xml" →
      main_convert input suffix outParent true outPath ow out_format =
        (.error (.valueError ("Unsupported input file format: " ++ suffix)), []) ∧
      (∀ fmt, Event.wroteOutput fmt ∉
        (main_convert input suffix outParent true outPath ow out_format).2) := by
  intro input suffix outParent outPath out_format ow h1 h2 h3 h4 h5 h6
  have e1 : (pyLower suffix == ".json") = false := by simpa using h3
  have e2 : (pyLower suffix == ".yaml") = false := by simpa using h4
  have e3 : (pyLower suffix == ".yml") = false := by simpa using h5
  have e4 : (pyLower suffix == ".xml") = false := by simpa using h6
  have hdet : detect_input_format suffix = "unknown" := by
    simp [detect_input_format, format_map, List.lookup, e1, e2, e3, e4]
  have hmc : main_convert input suffix outParent true outPath ow out_format =
      (.error (.valueError ("Unsupported input file format: " ++ suffix)), []) := by
    simp [main_convert, validate_files, h1, h2, hdet]
  exact ⟨hmc, by simp [hmc]⟩

/-- A `.txt` input file that exists and is readable. -/
def file_txt : DiskFile :=
  { path := "notes.txt", present := true, readable := true, isFile := true,
    content := { asJson := .error "", asYaml := .error "", asXml := .error "" } }

theorem unsupported_extension_rejected_witness :
    main_convert file_txt ".txt" "out" true "o.json" true "json" =
      (.error (.valueError ("Unsupported input file format: " ++ ".txt")), []) ∧
    (∀ fmt, Event.wroteOutput fmt ∉
      (main_convert file_txt ".txt" "out" true "o.json" true "json").2) :=
  unsupported_extension_rejected file_txt ".txt" "out" "o.json" "json" true
    rfl rfl (by decide) (by decide) (by decide) (by decide)

theorem main_save_stage_fst (data : Value) (outPath : String) (ow : Bool)
    (evs : List Event) :
    ∀ fout : String, (fout = "json" ∨ fout = "yaml" ∨ fout = "xml") →
    (main_save_stage data outPath ow fout evs).1 =
      (pair_save fout data outPath ow).map some := by
  intro fout hout
  rcases hout with rfl | rfl | rfl
  · cases hs : JSONParser.save data outPath ow <;>
      simp [main_save_stage, pair_save, hs, Except.map]
  · cases hs : YAMLParser.save data outPath ow <;>
      simp [main_save_stage, pair_save, hs, Except.map]
  · cases hs : XMLParser.save data outPath ow <;>
      simp [main_save_stage, pair_save, hs, Except.map]

/-- C1: each format has a `load`/`save` pair (`JSONParser`, `YAMLParser`,
`XMLParser` — see `pair_load`/`pair_save`), and the driver converts by
calling the detected input format's `load` and then the target format's
`save` on the very Value the load returned, with no transformation of the
Value in between. -/
theorem main_convert_is_pure_relay :
    ∀ (input : DiskFile) (suffix outParent outPath : String) (ow : Bool)
      (fmt_in fmt_out : String),
      input.present = true → input.isFile = true →
      detect_input_format suffix = fmt_in →
      (fmt_in = "json" ∨ fmt_in = "yaml" ∨ fmt_in = "xml") →
      (fmt_out = "json" ∨ fmt_out = "yaml" ∨ fmt_out = "xml") →
      (main_convert input suffix outParent true outPath ow fmt_out).1 =
        (pair_load fmt_in input).bind
          (fun v => (pair_save fmt_out v outPath ow).map some) := by
  intro input suffix outParent outPath ow fmt_in fmt_out h1 h2 hdet hin hout
  rcases hin with rfl | rfl | rfl
  · simp only [main_convert, validate_files, h1, h2, hdet, pair_load]
    simp only [Bool.not_true, Bool.false_eq_true, if_false]
    cases hl : JSONParser.load input with
    | error e => simp [main_load_stage, hl, Except.bind]
    | ok v =>
        simp [main_load_stage, hl, Except.bind,
          main_save_stage_fst v outPath ow _ fmt_out hout]
  · simp only [main_convert, validate_files, h1, h2, hdet, pair_load]
    simp only [Bool.not_true, Bool.false_eq_true, if_false]
    cases hl : YAMLParser.load input with
    | error e => simp [main_load_stage, hl, Except.bind]
    | ok v =>
        simp [main_load_stage, hl, Except.bind,
          main_save_stage_fst v outPath ow _ fmt_out hout]
  · simp only [main_convert, validate_files, h1, h2, hdet, pair_load]
    simp only [Bool.not_true, Bool.false_eq_true, if_false]
    cases hl : XMLParser.load input with
    | error e => simp [main_load_stage, hl, Except.bind]
    | ok v =>
        simp [main_load_stage, hl, Except.bind,
          main_save_stage_fst v outPath ow _ fmt_out hout]

theorem main_convert_is_pure_relay_witness :
    (main_convert file_kv_json ".json" "out" true "o.yaml" true "yaml").1 =
      (pair_load "json" file_kv_json).bind
        (fun v => (pair_save "yaml" v "o.yaml" true).map some) :=
  main_convert_is_pure_relay file_kv_json ".json" "out" "o.yaml" true "json" "yaml"
    rfl rfl (by decide) (Or.inl rfl) (Or.inr (Or.inl rfl))
